import Mathlib

/-!
# Verification of the tennis-swing-analysis client core

A shallow embedding of the client-side analysis workflow: the Analysis
Contract (shared data model), the Remote Analysis Client (`analyzeSwing`,
`healthCheck` over an axios instance with `baseURL "/api"`), the Submission
Workflow (`UploadPage` with its `handleSubmit`), and the Result Hand-off
(`ResultPage` reading the router navigation state).

JSON values are modelled with rational numbers; object field order is kept,
matching the order of a parsed JSON text. The remote service and the axios
transport are modelled as an explicit `ServerBehavior` (delay plus either a
status/body response or a network failure) fed to `axiosRequest`, which
mirrors axios's timeout handling (a config timeout of `0` means no timeout,
the axios default when none is set), its default `validateStatus`
(2xx = success), and its error objects (message string plus the response,
when one was received).
-/

namespace TennisSwing

/-- JSON values, with field order preserved in objects. -/
inductive Json where
  | null : Json
  | bool : Bool → Json
  | num : Rat → Json
  | str : String → Json
  | arr : List Json → Json
  | obj : List (String × Json) → Json

/-- Field lookup in a JSON object's field list (first match, as in JS). -/
def lookupField (fields : List (String × Json)) (key : String) : Option Json :=
  (fields.find? (fun p => p.1 == key)).map (fun p => p.2)

/-! ## The Analysis Contract (from `types.ts`) -/

/-- `export type Hand = "right" | "left"`. -/
inductive Hand where
  | right : Hand
  | left : Hand
deriving DecidableEq

/-- The string sent on the wire for a hand preference. -/
def handString : Hand → String
  | .right => "right"
  | .left => "left"

/-- `interface PlayerSimilarity`: `body_groups` is `Record<string, number>`,
kept as an ordered association list. -/
structure PlayerSimilarity where
  player : String
  overall_similarity : Rat
  body_groups : List (String × Rat)
deriving DecidableEq

/-- The discriminant of `CoachingTip.type`: `"strength" | "improvement"`. -/
inductive TipType where
  | strength : TipType
  | improvement : TipType
deriving DecidableEq

/-- `interface CoachingTip`. -/
structure CoachingTip where
  «type» : TipType
  body_part : String
  message : String
deriving DecidableEq

/-- `interface SwingPhases`: four `[number, number]` pairs and one instant. -/
structure SwingPhases where
  preparation : Rat × Rat
  forward_swing : Rat × Rat
  contact : Rat
  follow_through : Rat × Rat
  recovery : Rat × Rat
deriving DecidableEq

/-- One landmark record: `Record<string, number>`, field order kept. -/
abbrev LandmarkRecord : Type := List (String × Rat)

/-- `landmarks: (Record<string, number>[] | null)[] | null` — three-level
optionality: the whole sequence may be absent (`null`), each frame entry may
be `null`, and a present frame entry is an array of landmark records. -/
abbrev Landmarks : Type := Option (List (Option (List LandmarkRecord)))

/-- `interface AnalysisResponse`. -/
structure AnalysisResponse where
  most_similar_player : String
  similarities : List PlayerSimilarity
  coaching : List CoachingTip
  phases : SwingPhases
  landmarks : Landmarks
  reference_video_url : Option String

/-! ## Decoding the contract from JSON

The TypeScript interfaces are compile-time only; these decoders make the
declared structure of the contract checkable at run time, so that
"structurally valid Analysis Response" is a decidable property of a JSON
body. `decodeAnalysisResponse` succeeds exactly on bodies that fit the
declared shape of `AnalysisResponse`. -/

def asObj : Json → Option (List (String × Json))
  | .obj fields => some fields
  | _ => none

def asArr : Json → Option (List Json)
  | .arr xs => some xs
  | _ => none

def asString : Json → Option String
  | .str s => some s
  | _ => none

def asRat : Json → Option Rat
  | .num q => some q
  | _ => none

/-- A `[number, number]` tuple: a two-element array of numbers. -/
def asNumPair : Json → Option (Rat × Rat)
  | .arr [.num a, .num b] => some (a, b)
  | _ => none

/-- A `string | null` field value. -/
def asNullableString : Json → Option (Option String)
  | .null => some none
  | .str s => some (some s)
  | _ => none

/-- Decode the fields of a `Record<string, number>`: every value must be a
number. -/
def decodeNumEntries : List (String × Json) → Option (List (String × Rat))
  | [] => some []
  | (k, .num q) :: rest => (decodeNumEntries rest).map (fun m => (k, q) :: m)
  | _ => none

/-- Decode a `Record<string, number>`. -/
def decodeNumMap : Json → Option (List (String × Rat))
  | .obj fields => decodeNumEntries fields
  | _ => none

/-- Decode a `Record<string, number>[]` (one frame entry's record array). -/
def decodeRecordArray : List Json → Option (List LandmarkRecord)
  | [] => some []
  | j :: rest =>
    match decodeNumMap j, decodeRecordArray rest with
    | some m, some ms => some (m :: ms)
    | _, _ => none

/-- Decode one frame entry: `Record<string, number>[] | null`. -/
def decodeFrame : Json → Option (Option (List LandmarkRecord))
  | .null => some none
  | .arr records => (decodeRecordArray records).map some
  | _ => none

/-- Decode the frame sequence elementwise. -/
def decodeFrames : List Json → Option (List (Option (List LandmarkRecord)))
  | [] => some []
  | j :: rest =>
    match decodeFrame j, decodeFrames rest with
    | some f, some fs => some (f :: fs)
    | _, _ => none

/-- Decode the `landmarks` field: `(Record<string, number>[] | null)[] | null`. -/
def decodeLandmarks : Json → Option Landmarks
  | .null => some none
  | .arr frames => (decodeFrames frames).map some
  | _ => none

/-- Re-encode one landmark record as a JSON object. -/
def encodeNumMap (m : List (String × Rat)) : Json :=
  .obj (m.map (fun p => (p.1, .num p.2)))

/-- Re-encode one frame entry. -/
def encodeFrame : Option (List LandmarkRecord) → Json
  | none => .null
  | some records => .arr (records.map encodeNumMap)

/-- Re-encode the `landmarks` field. -/
def encodeLandmarks : Landmarks → Json
  | none => .null
  | some frames => .arr (frames.map encodeFrame)

def decodeSimilarity (j : Json) : Option PlayerSimilarity := do
  let fields ← asObj j
  let player ← asString (← lookupField fields "player")
  let overall ← asRat (← lookupField fields "overall_similarity")
  let groups ← decodeNumMap (← lookupField fields "body_groups")
  pure ⟨player, overall, groups⟩

def decodeTipType : Json → Option TipType
  | .str "strength" => some .strength
  | .str "improvement" => some .improvement
  | _ => none

def decodeTip (j : Json) : Option CoachingTip := do
  let fields ← asObj j
  let t ← decodeTipType (← lookupField fields "type")
  let bodyPart ← asString (← lookupField fields "body_part")
  let message ← asString (← lookupField fields "message")
  pure ⟨t, bodyPart, message⟩

def decodePhases (j : Json) : Option SwingPhases := do
  let fields ← asObj j
  let preparation ← asNumPair (← lookupField fields "preparation")
  let forwardSwing ← asNumPair (← lookupField fields "forward_swing")
  let contact ← asRat (← lookupField fields "contact")
  let followThrough ← asNumPair (← lookupField fields "follow_through")
  let recovery ← asNumPair (← lookupField fields "recovery")
  pure ⟨preparation, forwardSwing, contact, followThrough, recovery⟩

/-- Decode a full `AnalysisResponse`: every declared field must be present
with a value of its declared type (nullable fields may be `null` but must be
present). -/
def decodeAnalysisResponse (j : Json) : Option AnalysisResponse := do
  let fields ← asObj j
  let mostSimilar ← asString (← lookupField fields "most_similar_player")
  let similarities ← (← asArr (← lookupField fields "similarities")).mapM decodeSimilarity
  let coaching ← (← asArr (← lookupField fields "coaching")).mapM decodeTip
  let phases ← decodePhases (← lookupField fields "phases")
  let landmarks ← decodeLandmarks (← lookupField fields "landmarks")
  let referenceUrl ← asNullableString (← lookupField fields "reference_video_url")
  pure ⟨mostSimilar, similarities, coaching, phases, landmarks, referenceUrl⟩

/-! ## The Remote Analysis Client (from `api/client.ts`)

The axios instance is `axios.create({ baseURL: "/api" })`: no default
timeout is configured, so a request whose own config sets none runs under
axios's default `timeout: 0`, meaning no timeout at all. `analyzeSwing`
passes `timeout: 300000` in its per-request config; `healthCheck` passes no
config. Transport behavior (timeout abort, default 2xx `validateStatus`,
error messages, `error.response` only present when a response was received)
is the axios contract, modelled explicitly so the client functions can be
run against any server behavior. -/

/-- A selected video file (opaque binary payload; only identity matters). -/
structure VideoFile where
  name : String
deriving DecidableEq

/-- A multipart form value: a file part or a text part. -/
inductive FormValue where
  | file : VideoFile → FormValue
  | str : String → FormValue
deriving DecidableEq

/-- The per-request configuration the client passes to axios. `timeout = 0`
is axios's default when no timeout is given: the request never times out. -/
structure RequestConfig where
  method : String
  url : String
  timeout : Nat
  contentType : Option String
deriving DecidableEq

/-- One interaction offered by the remote service: how long it takes to
answer, and either `some (status, body)` or `none` for a network failure. -/
structure ServerBehavior where
  delayMs : Nat
  result : Option (Nat × Json)

/-- The error axios rejects with: an `Error` whose `message` is set, whose
`response` property exists only when an HTTP response was received. -/
structure AxiosError where
  message : String
  response : Option Json

/-- Axios's default `validateStatus`: 2xx counts as success. -/
def isSuccessStatus (status : Nat) : Bool :=
  200 ≤ status && status < 300

/-- One axios request under a config, run against a server behavior. A
nonzero config timeout smaller than the server's delay aborts with axios's
timeout error (no response attached); otherwise the server's outcome is
normalized: network failure and non-2xx status reject, 2xx resolves with
the parsed JSON body as `response.data` — no validation of its shape. -/
def axiosRequest (cfg : RequestConfig) (server : ServerBehavior) : Except AxiosError Json :=
  if cfg.timeout ≠ 0 ∧ cfg.timeout < server.delayMs then
    .error ⟨"timeout of " ++ toString cfg.timeout ++ "ms exceeded", none⟩
  else
    match server.result with
    | none => .error ⟨"Network Error", none⟩
    | some (status, body) =>
      if isSuccessStatus status then .ok body
      else .error ⟨"Request failed with status code " ++ toString status, some body⟩

/-- The request config of `analyzeSwing`: `api.post("/analyze", formData,
{ headers: multipart, timeout: 300000 })` on the `/api` instance. -/
def analyzeSwingConfig : RequestConfig :=
  ⟨"POST", "/api/analyze", 300000, some "multipart/form-data"⟩

/-- The request config of `healthCheck`: `api.get("/health")` with no
per-request config, hence axios's default timeout `0` (no timeout). -/
def healthCheckConfig : RequestConfig :=
  ⟨"GET", "/api/health", 0, none⟩

/-- The multipart body `analyzeSwing` builds: `formData.append("video",
videoFile); formData.append("hand", hand)`. -/
def analyzeSwingForm (videoFile : VideoFile) (hand : Hand) : List (String × FormValue) :=
  [("video", .file videoFile), ("hand", .str (handString hand))]

/-- `analyzeSwing(videoFile, hand)`: posts the form and resolves with
`response.data` as-is — the `AnalysisResponse` type on `api.post` is a
compile-time annotation, nothing re-checks the body's shape. -/
def analyzeSwing (videoFile : VideoFile) (hand : Hand) (server : ServerBehavior) :
    Except AxiosError Json :=
  axiosRequest analyzeSwingConfig server

/-- `healthCheck()`: gets `/health` and resolves with `response.data` as-is. -/
def healthCheck (server : ServerBehavior) : Except AxiosError Json :=
  axiosRequest healthCheckConfig server

/-! ## The Submission Workflow (from `pages/UploadPage.tsx`) -/

/-- The component state of `UploadPage`: `file`, `hand` (initially
`"right"`), `isLoading` (initially `false`), `error` (initially `null`). -/
structure UploadState where
  file : Option VideoFile
  hand : Hand
  isLoading : Bool
  error : Option String
deriving DecidableEq

/-- The initial `UploadPage` state. -/
def initialUploadState : UploadState :=
  ⟨none, .right, false, none⟩

/-- The spec's Submission State, read off the component state: `Submitting`
while `isLoading`, `Failed m` when an error message is set, else `Idle`
(`Succeeded` is the navigation away, tracked separately). -/
inductive SubmissionPhase where
  | idle : SubmissionPhase
  | submitting : SubmissionPhase
  | failed : String → SubmissionPhase
deriving DecidableEq

/-- Classify an `UploadState` into its Submission State. -/
def stateOf (s : UploadState) : SubmissionPhase :=
  if s.isLoading then .submitting
  else
    match s.error with
    | some m => .failed m
    | none => .idle

/-- `URL.createObjectURL(file)`: a fresh local blob reference for the file's
bytes, modelled as a function of the file. -/
def createObjectURL (f : VideoFile) : String :=
  "blob:" ++ f.name

/-- `navigate("/results", { state: { result, userVideoUrl } })`. -/
structure Navigation where
  path : String
  result : Json
  userVideoUrl : String

/-- `"detail" ∈ body` as read by `axiosErr.response?.data?.detail` when it
holds a string: a `null` or absent `detail` is nullish, so `??` falls back.
(A non-string, non-null `detail` would be assigned as-is in JS; no claim
exercises that case.) -/
def detailString (data : Json) : Option String :=
  match data with
  | .obj fields =>
    match lookupField fields "detail" with
    | some (.str s) => some s
    | _ => none
  | _ => none

/-- The `catch` block of `handleSubmit`. Every rejection of `analyzeSwing`
is an `AxiosError`, which extends `Error`, so `err instanceof Error` holds
and `message` starts from `err.message` (the hardcoded
`"Something went wrong. Please try again."` is the starting value the code
assigns before that check). `"response" in err` holds exactly when axios
attached a received response; then `response?.data?.detail ?? message`. -/
def catchMessage (err : AxiosError) : String :=
  let message := "Something went wrong. Please try again."
  let message := err.message
  match err.response with
  | some data =>
    match detailString data with
    | some d => d
    | none => message
  | none => message

/-- What one call to `handleSubmit` produces: the component state after the
call settles, the navigation it performed (if any), and how many network
requests it started. -/
structure SubmitResult where
  state : UploadState
  nav : Option Navigation
  requests : Nat

/-- `handleSubmit`: returns immediately when no file is selected; otherwise
sets `isLoading`/clears `error`, awaits `analyzeSwing(file, hand)` (the one
request it starts), then either navigates to `/results` carrying the result
and a fresh object URL, or stores the extracted message in `error`; the
`finally` branch resets `isLoading` on both paths. -/
def handleSubmit (s : UploadState) (server : ServerBehavior) : SubmitResult :=
  match s.file with
  | none => ⟨s, none, 0⟩
  | some file =>
    let submitting : UploadState := { s with isLoading := true, error := none }
    match analyzeSwing file s.hand server with
    | .ok result =>
      ⟨{ submitting with isLoading := false },
        some ⟨"/results", result, createObjectURL file⟩, 1⟩
    | .error err =>
      ⟨{ submitting with error := some (catchMessage err), isLoading := false }, none, 1⟩

/-- What `UploadPage` renders: `LoadingState` (no submit control at all)
while `isLoading`, else the form wiring `handleSubmit` to `onSubmit` with
`isDisabled = !file`. -/
inductive UploadView where
  | loadingState : UploadView
  | form : Option VideoFile → Hand → Option String → Bool → UploadView
deriving DecidableEq

/-- The render function of `UploadPage`: `if (isLoading) return
<LoadingState />` — the whole form, including the submit control, is not
rendered while a submission is in flight. -/
def UploadPage (s : UploadState) : UploadView :=
  if s.isLoading then .loadingState
  else .form s.file s.hand s.error s.file.isNone

/-- A submit event delivered to the rendered page: it reaches
`handleSubmit` only if the current view renders the form; the loading view
has no submit handler, so the event does nothing. -/
def dispatchSubmit (s : UploadState) (server : ServerBehavior) : SubmitResult :=
  match UploadPage s with
  | .loadingState => ⟨s, none, 0⟩
  | .form _ _ _ _ => handleSubmit s server

/-- `ErrorMessage`'s `onRetry={() => setError(null)}`: dismissing the error
only clears `error`. -/
def dismissError (s : UploadState) : UploadState :=
  { s with error := none }

/-! ## The Result Hand-off (from `pages/ResultPage.tsx`) -/

/-- The navigation state `ResultPage` casts to `LocationState | null`; at
run time `result` may be absent despite the interface. -/
structure LocationState where
  result : Option Json
  userVideoUrl : String

/-- JS truthiness of a parsed JSON value, for the `!state?.result` check. -/
def jsTruthy : Json → Bool
  | .null => false
  | .bool b => b
  | .num q => q ≠ 0
  | .str s => s ≠ ""
  | .arr _ => true
  | .obj _ => true

/-- What `ResultPage` renders: the fallback block (message, button label,
button target) or the results view (result payload, user video URL, back
target). -/
inductive ResultView where
  | fallback : String → String → String → ResultView
  | results : Json → String → String → ResultView

/-- The render function of `ResultPage`: `if (!state?.result)` renders the
"No analysis results found." block with an "Upload a Video" button
navigating to `/`; otherwise the results view over the unmodified payload. -/
def ResultPage (navState : Option LocationState) : ResultView :=
  match navState with
  | none => .fallback "No analysis results found." "Upload a Video" "/"
  | some st =>
    match st.result with
    | none => .fallback "No analysis results found." "Upload a Video" "/"
    | some r =>
      if jsTruthy r then .results r st.userVideoUrl "/"
      else .fallback "No analysis results found." "Upload a Video" "/"

/-! ## Theorems -/

/-- Claim C3: while the workflow is in the Submitting state, a submit event
has no observable effect beyond the first call — the page renders
`LoadingState`, which exposes no submit control, so the event changes no
state, performs no navigation, and starts no network request. -/
theorem reentrantSubmitIgnored (s : UploadState) (server : ServerBehavior)
    (h : s.isLoading = true) :
    dispatchSubmit s server = ⟨s, none, 0⟩ := by
  simp [dispatchSubmit, UploadPage, h]

/-- Concrete instance of `reentrantSubmitIgnored`: a submit event while a
submission for `swing.mp4` is in flight is a no-op. -/
theorem reentrantSubmitIgnored_witness :
    dispatchSubmit ⟨some ⟨"swing.mp4"⟩, .right, true, none⟩ ⟨0, none⟩ =
      ⟨⟨some ⟨"swing.mp4"⟩, .right, true, none⟩, none, 0⟩ :=
  reentrantSubmitIgnored _ _ rfl

/-- Claim C6: entering the result-rendering context with a navigation state
that is `null` or lacks a result payload renders the "No analysis results
found." fallback with an "Upload a Video" button navigating back to `/`;
`ResultPage` is a total function, so it never throws or renders nothing. -/
theorem resultFallbackWithoutHandoff (navState : Option LocationState)
    (h : navState.bind LocationState.result = none) :
    ResultPage navState = .fallback "No analysis results found." "Upload a Video" "/" := by
  cases navState with
  | none => rfl
  | some st =>
    cases hres : st.result with
    | none => simp [ResultPage, hres]
    | some r => simp [Option.bind, hres] at h

/-- Concrete instance of `resultFallbackWithoutHandoff`: direct navigation
(no router state at all) renders the fallback. -/
theorem resultFallbackWithoutHandoff_witness :
    ResultPage none = .fallback "No analysis results found." "Upload a Video" "/" :=
  resultFallbackWithoutHandoff none rfl

/-- Claim C7: dismissing the error of a Failed workflow returns it to Idle
while leaving the selected file and the hand preference untouched. -/
theorem dismissFailedRetainsSelection (s : UploadState) (m : String)
    (h : stateOf s = .failed m) :
    stateOf (dismissError s) = .idle ∧
    (dismissError s).file = s.file ∧ (dismissError s).hand = s.hand := by
  cases hload : s.isLoading with
  | true => rw [stateOf, if_pos hload] at h; cases h
  | false => exact ⟨by simp [stateOf, dismissError, hload], rfl, rfl⟩

/-- Concrete instance of `dismissFailedRetainsSelection`: dismissing a
failure keeps `swing.mp4` and the left-hand preference selected. -/
theorem dismissFailedRetainsSelection_witness :
    stateOf (dismissError ⟨some ⟨"swing.mp4"⟩, .left, false, some "video too short"⟩) = .idle ∧
    (dismissError ⟨some ⟨"swing.mp4"⟩, .left, false, some "video too short"⟩).file =
      some ⟨"swing.mp4"⟩ ∧
    (dismissError ⟨some ⟨"swing.mp4"⟩, .left, false, some "video too short"⟩).hand = .left :=
  dismissFailedRetainsSelection ⟨some ⟨"swing.mp4"⟩, .left, false, some "video too short"⟩
    "video too short" rfl

/-- Claim C10: every submission that enters Submitting leaves it once the
remote call settles — the state between `setIsLoading(true)` and the await
is Submitting, and on both the success and the failure branch the `finally`
reset leaves `isLoading = false` in the settled state. -/
theorem submittingAlwaysSettles (s : UploadState) (f : VideoFile) (server : ServerBehavior)
    (h : s.file = some f) :
    stateOf { s with isLoading := true, error := none } = .submitting ∧
    (handleSubmit s server).state.isLoading = false := by
  refine ⟨by simp [stateOf], ?_⟩
  simp only [handleSubmit, h]
  cases analyzeSwing f s.hand server <;> simp

/-- Concrete instance of `submittingAlwaysSettles`: after a network failure
the workflow is no longer loading. -/
theorem submittingAlwaysSettles_witness :
    stateOf { (⟨some ⟨"swing.mp4"⟩, .right, false, none⟩ : UploadState) with
      isLoading := true, error := none } = .submitting ∧
    (handleSubmit ⟨some ⟨"swing.mp4"⟩, .right, false, none⟩ ⟨0, none⟩).state.isLoading = false :=
  submittingAlwaysSettles ⟨some ⟨"swing.mp4"⟩, .right, false, none⟩ ⟨"swing.mp4"⟩ ⟨0, none⟩ rfl

/-- A non-success HTTP response within the 300000 ms timeout makes
`analyzeSwing` reject with axios's status error carrying the received body. -/
theorem analyzeSwing_statusError (videoFile : VideoFile) (hand : Hand)
    (server : ServerBehavior) (status : Nat) (body : Json)
    (hdelay : server.delayMs ≤ 300000)
    (hresult : server.result = some (status, body))
    (hstatus : isSuccessStatus status = false) :
    analyzeSwing videoFile hand server =
      .error ⟨"Request failed with status code " ++ toString status, some body⟩ := by
  unfold analyzeSwing axiosRequest
  rw [if_neg (fun hc => absurd hc.2 (Nat.not_lt.mpr hdelay))]
  rw [hresult]
  simp [hstatus]

/-- Claim C2: when the server answers with a non-success status within the
timeout, the workflow reaches Failed; if the JSON error body carries a
string `detail`, the failure message is exactly that string, and otherwise
the message is the error's own generic one. -/
theorem failedCarriesServerDetail (s : UploadState) (f : VideoFile)
    (server : ServerBehavior) (status : Nat) (body : Json)
    (hfile : s.file = some f) (hdelay : server.delayMs ≤ 300000)
    (hresult : server.result = some (status, body))
    (hstatus : isSuccessStatus status = false) :
    (∀ d, detailString body = some d →
      stateOf (handleSubmit s server).state = .failed d) ∧
    (detailString body = none →
      stateOf (handleSubmit s server).state =
        .failed ("Request failed with status code " ++ toString status)) := by
  have hreq := analyzeSwing_statusError f s.hand server status body hdelay hresult hstatus
  constructor
  · intro d hd
    simp [handleSubmit, hfile, hreq, catchMessage, hd, stateOf]
  · intro hd
    simp [handleSubmit, hfile, hreq, catchMessage, hd, stateOf]

/-- Concrete instance of `failedCarriesServerDetail`: a 500 response with
body `{"detail": "video too short"}` reaches Failed with message exactly
`"video too short"`. -/
theorem failedCarriesServerDetail_witness :
    stateOf (handleSubmit ⟨some ⟨"swing.mp4"⟩, .right, false, none⟩
      ⟨0, some (500, .obj [("detail", .str "video too short")])⟩).state =
      .failed "video too short" :=
  (failedCarriesServerDetail ⟨some ⟨"swing.mp4"⟩, .right, false, none⟩ ⟨"swing.mp4"⟩
    ⟨0, some (500, .obj [("detail", .str "video too short")])⟩ 500
    (.obj [("detail", .str "video too short")])
    rfl (by decide) rfl (by decide)).1 "video too short" rfl

/-- A server delay beyond the 300000 ms timeout makes `analyzeSwing` reject
with axios's timeout error, which carries no response. -/
theorem analyzeSwing_timeout (videoFile : VideoFile) (hand : Hand)
    (server : ServerBehavior) (hdelay : 300000 < server.delayMs) :
    analyzeSwing videoFile hand server =
      .error ⟨"timeout of 300000ms exceeded", none⟩ := by
  unfold analyzeSwing axiosRequest
  rw [if_pos ⟨by decide, hdelay⟩]
  rfl

/-- Claim C5: when the remote call times out after 300000 ms, the workflow
reaches Failed carrying the timeout error's own generic client-side message
(no response was received, so no server `detail` can be involved), performs
no navigation, and — `handleSubmit` being a total function whose `catch`
covers the rejection — the timeout never escapes as an unhandled rejection. -/
theorem timeoutReachesFailedGeneric (s : UploadState) (f : VideoFile)
    (server : ServerBehavior) (hfile : s.file = some f)
    (hdelay : 300000 < server.delayMs) :
    stateOf (handleSubmit s server).state = .failed "timeout of 300000ms exceeded" ∧
    (handleSubmit s server).nav = none := by
  have hreq := analyzeSwing_timeout f s.hand server hdelay
  constructor
  · simp [handleSubmit, hfile, hreq, catchMessage, stateOf]
  · simp [handleSubmit, hfile, hreq]

/-- Concrete instance of `timeoutReachesFailedGeneric`: a server taking
300001 ms leaves the workflow Failed with the timeout message and no
navigation. -/
theorem timeoutReachesFailedGeneric_witness :
    stateOf (handleSubmit ⟨some ⟨"swing.mp4"⟩, .right, false, none⟩
      ⟨300001, some (200, .null)⟩).state = .failed "timeout of 300000ms exceeded" ∧
    (handleSubmit ⟨some ⟨"swing.mp4"⟩, .right, false, none⟩
      ⟨300001, some (200, .null)⟩).nav = none :=
  timeoutReachesFailedGeneric ⟨some ⟨"swing.mp4"⟩, .right, false, none⟩ ⟨"swing.mp4"⟩
    ⟨300001, some (200, .null)⟩ rfl (by decide)

/-- A string with a non-empty prefix is non-empty. -/
theorem prefixed_ne_empty (s t : String) (h : s.length ≠ 0) : s ++ t ≠ "" := by
  intro he
  have hlen := congrArg String.length he
  rw [String.length_append] at hlen
  simp at hlen
  exact h hlen.1

/-- Counterexample to claim C1: a 200 response whose body is `{}` — missing
every required `AnalysisResponse` field — makes `analyzeSwing` resolve with
that body as-is; nothing rejects it at decode time, as
`decodeAnalysisResponse` (the declared shape, made checkable) confirms by
failing on it. -/
theorem analyzeSwingReturnsUnvalidatedBody :
    analyzeSwing ⟨"swing.mp4"⟩ .right ⟨0, some (200, .obj [])⟩ = .ok (.obj []) ∧
    decodeAnalysisResponse (.obj []) = none :=
  ⟨rfl, rfl⟩

/-- Claim C1 as amended: `analyzeSwing` resolves exactly with the JSON body
of a success-status response received within the timeout — unvalidated, so
a body missing required fields is returned rather than rejected — and every
rejection carries a non-empty message. -/
theorem analyzeSwingOutcomes (videoFile : VideoFile) (hand : Hand)
    (server : ServerBehavior) :
    (∀ e, analyzeSwing videoFile hand server = .error e → e.message ≠ "") ∧
    (∀ b, analyzeSwing videoFile hand server = .ok b →
      ∃ status, server.result = some (status, b) ∧ isSuccessStatus status = true ∧
        server.delayMs ≤ 300000) := by
  unfold analyzeSwing axiosRequest
  by_cases htime : analyzeSwingConfig.timeout ≠ 0 ∧ analyzeSwingConfig.timeout < server.delayMs
  · rw [if_pos htime]
    refine ⟨fun e he => ?_, fun b hb => by simp at hb⟩
    injection he with h
    subst h
    decide
  · rw [if_neg htime]
    have hdelay : server.delayMs ≤ 300000 := by
      by_contra hgt
      exact htime ⟨by decide, Nat.lt_of_not_le (fun hle => hgt hle)⟩
    cases hres : server.result with
    | none =>
      refine ⟨fun e he => ?_, fun b hb => by simp at hb⟩
      injection he with h
      subst h
      decide
    | some p =>
      obtain ⟨status, body⟩ := p
      cases hsucc : isSuccessStatus status with
      | true =>
        refine ⟨fun e he => by simp [hsucc] at he, fun b hb => ?_⟩
        simp only [hsucc, if_true] at hb
        injection hb with h
        subst h
        exact ⟨status, rfl, hsucc, hdelay⟩
      | false =>
        refine ⟨fun e he => ?_, fun b hb => by simp [hsucc] at hb⟩
        simp only [hsucc, Bool.false_eq_true, if_false] at he
        injection he with h
        subst h
        exact prefixed_ne_empty _ _ (by decide)

/-- Concrete instance of `analyzeSwingOutcomes`: a 200 response resolves
with its body coming from the server unmodified, and a network failure's
rejection message is non-empty. -/
theorem analyzeSwingOutcomes_witness :
    (∃ status, (⟨0, some (200, Json.obj [])⟩ : ServerBehavior).result =
        some (status, Json.obj []) ∧ isSuccessStatus status = true ∧
        (⟨0, some (200, Json.obj [])⟩ : ServerBehavior).delayMs ≤ 300000) ∧
    ({ message := "Network Error", response := none } : AxiosError).message ≠ "" :=
  ⟨(analyzeSwingOutcomes ⟨"swing.mp4"⟩ .right ⟨0, some (200, .obj [])⟩).2 (.obj []) rfl,
    (analyzeSwingOutcomes ⟨"swing.mp4"⟩ .right ⟨0, none⟩).1 ⟨"Network Error", none⟩ rfl⟩

/-- Counterexample to claim C4: `healthCheck` does not run under
`analyzeSwing`'s timeout policy — its request config carries axios's default
timeout `0` (no timeout) instead of `300000`, so against a server that takes
300001 ms the health probe still resolves while `analyzeSwing` aborts with
the timeout error. -/
theorem healthCheckLacksAnalyzeTimeout :
    healthCheckConfig.timeout = 0 ∧ analyzeSwingConfig.timeout = 300000 ∧
    healthCheck ⟨300001, some (200, .obj [("status", .str "ok"), ("version", .str "0.1.0")])⟩ =
      .ok (.obj [("status", .str "ok"), ("version", .str "0.1.0")]) ∧
    analyzeSwing ⟨"swing.mp4"⟩ .right
        ⟨300001, some (200, .obj [("status", .str "ok"), ("version", .str "0.1.0")])⟩ =
      .error ⟨"timeout of 300000ms exceeded", none⟩ :=
  ⟨rfl, rfl, rfl, rfl⟩

/-- Claim C4 as amended: `healthCheck` hits its fixed endpoint with no
special payload decoding and the same error normalization as
`analyzeSwing` — non-empty message on network failure or non-success
status — but with no timeout at all (axios default `0`): its outcome is
independent of the server's delay, unlike `analyzeSwing`'s 300000 ms bound. -/
theorem healthCheckPolicy :
    (∀ server : ServerBehavior, healthCheck server = healthCheck ⟨0, server.result⟩) ∧
    (∀ server e, healthCheck server = .error e → e.message ≠ "") ∧
    (∀ (server : ServerBehavior) status body, server.result = some (status, body) →
      isSuccessStatus status = true → healthCheck server = .ok body) ∧
    (∀ (server : ServerBehavior) status body, server.result = some (status, body) →
      isSuccessStatus status = false →
      healthCheck server =
        .error ⟨"Request failed with status code " ++ toString status, some body⟩) ∧
    (∀ server : ServerBehavior, server.result = none →
      healthCheck server = .error ⟨"Network Error", none⟩) := by
  refine ⟨fun server => by simp [healthCheck, axiosRequest, healthCheckConfig],
    fun server e he => ?_,
    fun server status body hres hsucc => by
      simp [healthCheck, axiosRequest, healthCheckConfig, hres, hsucc],
    fun server status body hres hsucc => by
      simp [healthCheck, axiosRequest, healthCheckConfig, hres, hsucc],
    fun server hres => by simp [healthCheck, axiosRequest, healthCheckConfig, hres]⟩
  unfold healthCheck axiosRequest at he
  rw [if_neg (fun hc => hc.1 rfl)] at he
  cases hres : server.result with
  | none =>
    rw [hres] at he
    injection he with h
    subst h
    decide
  | some p =>
    obtain ⟨status, body⟩ := p
    rw [hres] at he
    cases hsucc : isSuccessStatus status with
    | true => simp [hsucc] at he
    | false =>
      simp only [hsucc, Bool.false_eq_true, if_false] at he
      injection he with h
      subst h
      exact prefixed_ne_empty _ _ (by decide)

/-- Concrete instance of `healthCheckPolicy`: a delayed 200 health response
still resolves with its body, and a 503 rejects with a non-empty message. -/
theorem healthCheckPolicy_witness :
    healthCheck ⟨300001, some (200, .obj [("status", .str "ok"), ("version", .str "0.1.0")])⟩ =
      .ok (.obj [("status", .str "ok"), ("version", .str "0.1.0")]) ∧
    ({ message := "Request failed with status code " ++ toString 503,
        response := some (.obj []) } : AxiosError).message ≠ "" :=
  ⟨healthCheckPolicy.2.2.1 ⟨300001, some (200, .obj [("status", .str "ok"),
      ("version", .str "0.1.0")])⟩ 200 _ rfl rfl,
    healthCheckPolicy.2.1 ⟨0, some (503, .obj [])⟩ _
      (healthCheckPolicy.2.2.2.1 ⟨0, some (503, .obj [])⟩ 503 (.obj []) rfl rfl)⟩

/-- The complete Analysis Response body of the success scenario. -/
def scenarioBody : Json :=
  .obj [
    ("most_similar_player", .str "Federer"),
    ("similarities", .arr [.obj [
      ("player", .str "Federer"),
      ("overall_similarity", .num (92 / 100)),
      ("body_groups", .obj [("arm", .num (9 / 10))])]]),
    ("coaching", .arr [.obj [
      ("type", .str "strength"),
      ("body_part", .str "hip"),
      ("message", .str "Good rotation")]]),
    ("phases", .obj [
      ("preparation", .arr [.num 0, .num 1]),
      ("forward_swing", .arr [.num 1, .num 2]),
      ("contact", .num 2),
      ("follow_through", .arr [.num 2, .num 3]),
      ("recovery", .arr [.num 3, .num 4])]),
    ("landmarks", .null),
    ("reference_video_url", .str "https://example.com/federer_forehand.mp4")]

/-- The typed reading of `scenarioBody` under the declared contract. -/
def scenarioResponse : AnalysisResponse where
  most_similar_player := "Federer"
  similarities := [⟨"Federer", 92 / 100, [("arm", 9 / 10)]⟩]
  coaching := [⟨.strength, "hip", "Good rotation"⟩]
  phases := ⟨(0, 1), (1, 2), 2, (2, 3), (3, 4)⟩
  landmarks := none
  reference_video_url := some "https://example.com/federer_forehand.mp4"

/-- Claim C9: submitting `swing.mp4` with `hand = "right"` (the form posts
exactly the video part and `"right"`) against a 200 response carrying the
complete scenario body reaches the success hand-off with that exact payload
unmodified — the navigation state holds `scenarioBody` itself, the body is a
structurally complete `AnalysisResponse`, and `ResultPage` entered with the
hand-off renders that same payload. -/
theorem rightHandSuccessExactPayload :
    analyzeSwingForm ⟨"swing.mp4"⟩ .right =
      [("video", .file ⟨"swing.mp4"⟩), ("hand", .str "right")] ∧
    handleSubmit ⟨some ⟨"swing.mp4"⟩, .right, false, none⟩ ⟨12000, some (200, scenarioBody)⟩ =
      ⟨⟨some ⟨"swing.mp4"⟩, .right, false, none⟩,
        some ⟨"/results", scenarioBody, "blob:swing.mp4"⟩, 1⟩ ∧
    decodeAnalysisResponse scenarioBody = some scenarioResponse ∧
    ResultPage (some ⟨some scenarioBody, "blob:swing.mp4"⟩) =
      .results scenarioBody "blob:swing.mp4" "/" :=
  ⟨rfl, rfl, rfl, rfl⟩

/-- Decoded `Record<string, number>` fields re-encode to the original
field list. -/
theorem decodeNumEntries_roundTrip :
    ∀ (fields : List (String × Json)) (m : List (String × Rat)),
      decodeNumEntries fields = some m →
      m.map (fun p => (p.1, Json.num p.2)) = fields := by
  intro fields
  induction fields with
  | nil =>
    intro m h
    simp [decodeNumEntries] at h
    subst h
    rfl
  | cons p rest ih =>
    intro m h
    obtain ⟨k, v⟩ := p
    cases v with
    | num q =>
      simp only [decodeNumEntries, Option.map_eq_some'] at h
      obtain ⟨m', hm', rfl⟩ := h
      simp [ih m' hm']
    | null => exact absurd h (by simp [decodeNumEntries])
    | bool b => exact absurd h (by simp [decodeNumEntries])
    | str s => exact absurd h (by simp [decodeNumEntries])
    | arr xs => exact absurd h (by simp [decodeNumEntries])
    | obj fs => exact absurd h (by simp [decodeNumEntries])

/-- A decoded `Record<string, number>` re-encodes to the original JSON. -/
theorem decodeNumMap_roundTrip (j : Json) (m : List (String × Rat))
    (h : decodeNumMap j = some m) : encodeNumMap m = j := by
  cases j with
  | obj fields =>
    simp only [decodeNumMap] at h
    simp only [encodeNumMap, decodeNumEntries_roundTrip fields m h]
  | null => exact absurd h (by simp [decodeNumMap])
  | bool b => exact absurd h (by simp [decodeNumMap])
  | num q => exact absurd h (by simp [decodeNumMap])
  | str s => exact absurd h (by simp [decodeNumMap])
  | arr xs => exact absurd h (by simp [decodeNumMap])

/-- A decoded record array re-encodes to the original JSON list. -/
theorem decodeRecordArray_roundTrip :
    ∀ (records : List Json) (ms : List LandmarkRecord),
      decodeRecordArray records = some ms → ms.map encodeNumMap = records := by
  intro records
  induction records with
  | nil =>
    intro ms h
    simp [decodeRecordArray] at h
    subst h
    rfl
  | cons j rest ih =>
    intro ms h
    simp only [decodeRecordArray] at h
    cases hj : decodeNumMap j with
    | none => rw [hj] at h; cases h
    | some m =>
      cases hr : decodeRecordArray rest with
      | none => rw [hj, hr] at h; cases h
      | some ms' =>
        rw [hj, hr] at h
        injection h with h'
        subst h'
        simp [decodeNumMap_roundTrip j m hj, ih ms' hr]

/-- A decoded frame entry re-encodes to the original JSON: `null` stays
`null`, a present record array stays itself. -/
theorem decodeFrame_roundTrip (j : Json) (f : Option (List LandmarkRecord))
    (h : decodeFrame j = some f) : encodeFrame f = j := by
  cases j with
  | null =>
    simp only [decodeFrame] at h
    injection h with h'
    subst h'
    rfl
  | arr records =>
    simp only [decodeFrame, Option.map_eq_some'] at h
    obtain ⟨ms, hms, rfl⟩ := h
    simp [encodeFrame, decodeRecordArray_roundTrip records ms hms]
  | bool b => exact absurd h (by simp [decodeFrame])
  | num q => exact absurd h (by simp [decodeFrame])
  | str s => exact absurd h (by simp [decodeFrame])
  | obj fs => exact absurd h (by simp [decodeFrame])

/-- A decoded frame sequence re-encodes to the original JSON list. -/
theorem decodeFrames_roundTrip :
    ∀ (frames : List Json) (fs : List (Option (List LandmarkRecord))),
      decodeFrames frames = some fs → fs.map encodeFrame = frames := by
  intro frames
  induction frames with
  | nil =>
    intro fs h
    simp [decodeFrames] at h
    subst h
    rfl
  | cons j rest ih =>
    intro fs h
    simp only [decodeFrames] at h
    cases hj : decodeFrame j with
    | none => rw [hj] at h; cases h
    | some f =>
      cases hr : decodeFrames rest with
      | none => rw [hj, hr] at h; cases h
      | some fs' =>
        rw [hj, hr] at h
        injection h with h'
        subst h'
        simp [decodeFrame_roundTrip j f hj, ih fs' hr]

/-- Claim C8: decoding a `landmarks` value and re-encoding it is the
identity on the JSON — an absent (`null`) whole sequence, a
present-but-`null` frame entry, and a present frame entry each come back in
exactly the original shape, so no level of the three-level optionality is
collapsed by a round trip. -/
theorem landmarksRoundTripExact (j : Json) (l : Landmarks)
    (h : decodeLandmarks j = some l) : encodeLandmarks l = j := by
  cases j with
  | null =>
    simp only [decodeLandmarks] at h
    injection h with h'
    subst h'
    rfl
  | arr frames =>
    simp only [decodeLandmarks, Option.map_eq_some'] at h
    obtain ⟨fs, hfs, rfl⟩ := h
    simp [encodeLandmarks, decodeFrames_roundTrip frames fs hfs]
  | bool b => exact absurd h (by simp [decodeLandmarks])
  | num q => exact absurd h (by simp [decodeLandmarks])
  | str s => exact absurd h (by simp [decodeLandmarks])
  | obj fs => exact absurd h (by simp [decodeLandmarks])

/-- Concrete instance of `landmarksRoundTripExact`, covering all three
optionality levels: the absent whole sequence round-trips to `null`, and a
sequence holding one `null` frame and one present frame round-trips to
exactly the original array. -/
theorem landmarksRoundTripExact_witness :
    encodeLandmarks none = .null ∧
    encodeLandmarks (some [none, some [[("nose_x", (1 : Rat) / 2)]]]) =
      .arr [.null, .arr [.obj [("nose_x", .num ((1 : Rat) / 2))]]] :=
  ⟨landmarksRoundTripExact .null none rfl,
    landmarksRoundTripExact (.arr [.null, .arr [.obj [("nose_x", .num ((1 : Rat) / 2))]]])
      (some [none, some [[("nose_x", (1 : Rat) / 2)]]]) rfl⟩

end TennisSwing
